import Mathlib

/-!
Verification development for `examples/generate_xlsx.py`, a script that
procedurally builds three example spreadsheet workbooks
(`financial-model.xlsx`, `data-analysis.xlsx`, `inventory-tracking.xlsx`).

The script is embedded shallowly: each openpyxl worksheet becomes a list of
cell writes (row, column, value, font, fill) plus a list of merge-range
directives, and each `create_*` function becomes a Lean definition producing
that data.  Python's `random` module is abstracted as an arbitrary
deterministic pseudo-random generator: a function from a seed and a draw
index to a raw draw (and a second function for the unknown, OS-seeded state
the interpreter starts with).  All literal data tables are transcribed
verbatim from the source.
-/

namespace GenXlsx

/-- A cell value: empty, a string (data or formula text), or a number
(`int`/`float` values of the source are represented in `ℚ`). -/
inductive Val
  | empty
  | s (str : String)
  | n (q : ℚ)
deriving DecidableEq

/-- A font, as far as the script sets one: `Font(bold=..., size=...)`;
`size := none` models a `Font(bold=True)` with no explicit size. -/
structure Fnt where
  bold : Bool
  size : Option Nat
deriving DecidableEq

/-- One assignment to a worksheet cell: address, value, optional font, and
whether the header fill is applied. -/
structure CellWrite where
  row : Nat
  col : Nat
  val : Val
  font : Option Fnt
  fill : Bool
deriving DecidableEq

/-- Plain cell write (no styling). -/
def cw (r c : Nat) (v : Val) : CellWrite := ⟨r, c, v, none, false⟩

/-- Cell write with a font. -/
def cwf (r c : Nat) (v : Val) (f : Fnt) : CellWrite := ⟨r, c, v, some f, false⟩

/-- Cell write with a font and the header fill. -/
def cwh (r c : Nat) (v : Val) (f : Fnt) : CellWrite := ⟨r, c, v, some f, true⟩

/-- A worksheet: its name, the sequence of cell writes performed on it, and
the merge directives (`merge_cells` arguments, verbatim). -/
structure Sheet where
  name : String
  writes : List CellWrite
  merges : List String
deriving DecidableEq

/-- The value a cell holds after all writes (last write wins; a cell never
written holds `Val.empty`). -/
def cellVal (ws : List CellWrite) (r c : Nat) : Val :=
  ws.foldl (fun acc w => if w.row == r && w.col == c then w.val else acc) Val.empty

/-- Python truthiness of a cell value (`''` and `0` are falsy). -/
def truthy : Val → Bool
  | .empty => false
  | .s str => str != ""
  | .n q => q != 0

/-- A value that renders as an empty cell. -/
def valBlank : Val → Bool
  | .empty => true
  | .s str => str == ""
  | .n _ => false

/-- A row is blank when every write touching it carries an empty value. -/
def rowBlank (ws : List CellWrite) (r : Nat) : Bool :=
  ws.all fun w => w.row != r || valBlank w.val

/-- `enumRows f start rows` mirrors `for i, row in enumerate(rows, start=start): f`:
the body `f` is applied to each descriptor at consecutive row indices. -/
def enumRows {α : Type} (f : Nat → α → List CellWrite) : Nat → List α → List CellWrite
  | _, [] => []
  | r, x :: xs => f r x ++ enumRows f (r + 1) xs

/-- Body of a plain data-row loop
(`for j, value in enumerate(row, start=1): sheet.cell(row=i, column=j, value=value)`). -/
def dataRowBody (r : Nat) (row : List Val) : List CellWrite :=
  row.enum.map fun p => cw r (p.1 + 1) p.2

/-! ### Number and date formatting helpers (Python `str`, `%m/%d/%Y`, `:03d`) -/

/-- Zero-pad to two digits. -/
def pad2 (n : Nat) : String := if n < 10 then "0" ++ toString n else toString n

/-- Zero-pad to three digits (`f'{n:03d}'`). -/
def pad3 (n : Nat) : String :=
  if n < 10 then "00" ++ toString n
  else if n < 100 then "0" ++ toString n
  else toString n

/-- Days in month `m` of 2024 (a leap year). -/
def monthLen2024 : Nat → Nat
  | 2 => 29
  | 4 => 30
  | 6 => 30
  | 9 => 30
  | 11 => 30
  | _ => 31

/-- Walk forward from month `m` while the day offset `k` exceeds the month
length; the fuel bounds the walk at the 11 remaining months of the year. -/
def monthDayAux : Nat → Nat → Nat → Nat × Nat
  | 0, m, k => (m, k + 1)
  | fuel + 1, m, k =>
    if k < monthLen2024 m then (m, k + 1)
    else monthDayAux fuel (m + 1) (k - monthLen2024 m)

/-- `(datetime(2024, 1, 1) + timedelta(days=k)).strftime('%m/%d/%Y')`
for offsets staying inside 2024. -/
def strftimeMDY2024 (k : Nat) : String :=
  let md := monthDayAux 11 1 k
  pad2 md.1 ++ "/" ++ pad2 md.2 ++ "/2024"

/-! ### The `random` module, abstracted

Python's global Mersenne-Twister state is modelled as either an unknown
OS-seeded state (indexed by an arbitrary `Nat`) or the state reached `k`
raw draws after `random.seed(seed)`.  The generator itself is an arbitrary
pair of deterministic functions; every library call consumes one raw draw. -/

/-- An abstract deterministic pseudo-random generator: `seedFn s k` is the
`k`-th raw draw after `random.seed(s)`, `envFn e k` the `k`-th raw draw from
the unknown interpreter-startup state `e`. -/
structure PyRandom where
  seedFn : Nat → Nat → Nat
  envFn : Nat → Nat → Nat

/-- The global `random` state: unseeded (OS entropy) or seeded. -/
inductive RState
  | unseeded (e : Nat) (k : Nat)
  | seeded (seed : Nat) (k : Nat)
deriving DecidableEq

/-- Consume one raw draw. -/
def rawDraw (R : PyRandom) : RState → Nat × RState
  | .unseeded e k => (R.envFn e k, .unseeded e (k + 1))
  | .seeded s k => (R.seedFn s k, .seeded s (k + 1))

/-- `random.randint(a, b)`: one draw, mapped into `[a, b]`. -/
def randint (R : PyRandom) (a b : Nat) (st : RState) : Nat × RState :=
  (a + (rawDraw R st).fst % (b - a + 1), (rawDraw R st).snd)

/-- `random.choice(xs)`: one draw, used to pick an element. -/
def choice (R : PyRandom) (xs : List String) (st : RState) : String × RState :=
  (xs.getD ((rawDraw R st).fst % xs.length) "", (rawDraw R st).snd)

/-- A counted loop whose body emits cell writes and threads the `random`
state (`for i in range(...)` with the loop counter as row index). -/
def stLoop (body : Nat → RState → List CellWrite × RState) :
    Nat → Nat → RState → List CellWrite × RState
  | _, 0, st => ([], st)
  | i, n + 1, st =>
    let p := body i st
    let rest := stLoop body (i + 1) n p.snd
    (p.fst ++ rest.fst, rest.snd)

/-- A counted loop whose body builds one data row and threads the `random`
state (the `trans_data` building loops). -/
def stRows (body : Nat → RState → List Val × RState) :
    Nat → Nat → RState → List (List Val) × RState
  | _, 0, st => ([], st)
  | i, n + 1, st =>
    let p := body i st
    let rest := stRows body (i + 1) n p.snd
    (p.fst :: rest.fst, rest.snd)

/-! ## `create_financial_model` (source lines 14-199) -/

namespace create_financial_model

/-- `header_font = Font(bold=True, size=12)`. -/
def header_font : Fnt := ⟨true, some 12⟩

/-- `label_font = Font(bold=True)`. -/
def label_font : Fnt := ⟨true, none⟩

/-- `params_data` (lines 43-60), transcribed verbatim. -/
def params_data : List (List Val) := [
  [.s "Annual Interest Rate", .n (mkRat 5 100), .s "5% annual rate"],
  [.s "Loan Term (Years)", .n 30, .s "30-year mortgage"],
  [.s "Loan Principal", .n 500000, .s "$500,000 loan"],
  [.s "", .s "", .s ""],
  [.s "Investment Parameters", .s "", .s ""],
  [.s "Investment Annual Rate", .n (mkRat 8 100), .s "8% annual return"],
  [.s "Investment Period (Years)", .n 20, .s "20-year investment"],
  [.s "Monthly Contribution", .n 1000, .s "$1,000/month"],
  [.s "Initial Investment", .n 10000, .s "$10,000 initial"],
  [.s "", .s "", .s ""],
  [.s "NPV/IRR Parameters", .s "", .s ""],
  [.s "Discount Rate", .n (mkRat 10 100), .s "10% discount rate"],
  [.s "Number of Periods", .n 10, .s "10 periods"],
  [.s "Payment Amount", .n 5000, .s "$5,000 payment"],
  [.s "Present Value", .n 40000, .s "$40,000 PV"],
  [.s "Future Value", .n 0, .s "$0 FV"]]

/-- `row[0] in ['Investment Parameters', 'NPV/IRR Parameters']` (line 63). -/
def isSectionLabel (v : Val) : Bool :=
  v == .s "Investment Parameters" || v == .s "NPV/IRR Parameters"

/-- Body of the `params_data` loop (lines 62-73): section headers get a bold
size-12 font in column 1; regular rows write all three values, column 1
taking `label_font` when truthy and not the empty string. -/
def paramsRowBody (r : Nat) (row : List Val) : List CellWrite :=
  if isSectionLabel (row.getD 0 .empty) then
    [cwf r 1 (row.getD 0 .empty) ⟨true, some 12⟩]
  else
    row.enum.map fun p =>
      if p.1 == 0 && truthy p.2 && p.2 != .s "" then cwf r (p.1 + 1) p.2 label_font
      else cw r (p.1 + 1) p.2

/-- The merges registered by the `params_data` loop: `f'A{i}:C{i}'` for each
section-header row, rows counted from 2. -/
def paramsMerges : List String :=
  params_data.enum.filterMap fun p =>
    if isSectionLabel (p.2.getD 0 .empty) then
      some ("A" ++ toString (2 + p.1) ++ ":C" ++ toString (2 + p.1))
    else none

/-- The `LoanParameters` sheet (lines 39-73). -/
def loanParameters : Sheet :=
  ⟨"LoanParameters",
   cwf 1 1 (.s "Loan Parameters") ⟨true, some 14⟩ :: enumRows paramsRowBody 2 params_data,
   "A1:B1" :: paramsMerges⟩

/-- `cash_flow_data` (lines 84-96). `-100000` is the IRR outlay. -/
def cash_flow_data : List (List Val) := [
  [.n 0, .n 0, .n (-100000)],
  [.n 1, .n 15000, .n 15000],
  [.n 2, .n 20000, .n 20000],
  [.n 3, .n 25000, .n 25000],
  [.n 4, .n 30000, .n 30000],
  [.n 5, .n 35000, .n 35000],
  [.n 6, .n 40000, .n 40000],
  [.n 7, .n 45000, .n 45000],
  [.n 8, .n 50000, .n 50000],
  [.n 9, .n 55000, .n 55000],
  [.n 10, .n 60000, .n 60000]]

/-- The `CashFlows` sheet (lines 76-100). -/
def cashFlows : Sheet :=
  ⟨"CashFlows",
   [cwh 1 1 (.s "Period") header_font,
    cwh 1 2 (.s "Cash Flow (NPV)") header_font,
    cwh 1 3 (.s "Cash Flow (IRR)") header_font] ++
   enumRows dataRowBody 2 cash_flow_data,
   []⟩

/-- `loan_calc_formulas` (lines 107-112), transcribed verbatim. -/
def loan_calc_formulas : List (String × String) := [
  ("Monthly Payment", "=PMT(LoanParameters!B2/12, LoanParameters!B3*12, -LoanParameters!B4)"),
  ("Total Amount Paid", "=B2*LoanParameters!B3*12"),
  ("Total Interest Paid", "=B3-LoanParameters!B4"),
  ("Effective Annual Rate",
   "=RATE(LoanParameters!B14, -LoanParameters!B15, LoanParameters!B16, -LoanParameters!B17)*12")]

/-- Body of the `loan_calc_formulas` loop (lines 114-116): label in column 1
with `label_font`, formula in column 2. -/
def labelFormulaBody (r : Nat) (p : String × String) : List CellWrite :=
  [cwf r 1 (.s p.1) label_font, cw r 2 (.s p.2)]

/-- The `LoanCalculations` sheet (lines 103-141). -/
def loanCalculations : Sheet :=
  ⟨"LoanCalculations",
   cwf 1 1 (.s "Loan Analysis") ⟨true, some 14⟩ ::
   enumRows labelFormulaBody 2 loan_calc_formulas ++
   [cwf 7 1 (.s "Amortization Schedule") ⟨true, some 12⟩,
    cwh 8 1 (.s "Month") header_font,
    cwh 8 2 (.s "Principal") header_font,
    cwh 8 3 (.s "Interest") header_font,
    cwh 8 4 (.s "Balance") header_font,
    cw 9 1 (.n 1),
    cw 9 2 (.s "=B2-C9"),
    cw 9 3 (.s "=LoanParameters!B4*LoanParameters!B2/12"),
    cw 9 4 (.s "=LoanParameters!B4-B9"),
    cw 10 1 (.n 2),
    cw 10 2 (.s "=B2-C10"),
    cw 10 3 (.s "=D9*LoanParameters!B2/12"),
    cw 10 4 (.s "=D9-B10")],
   ["A1:B1", "A7:D7"]⟩

/-- `investment_formulas` (lines 148-158), transcribed verbatim.  Every row
of the literal list has exactly two elements, so the `elif len(row) == 1`
branch of the loop (lines 165-166) never fires. -/
def investment_formulas : List (String × String) := [
  ("Future Value (Lump Sum)", "=FV(LoanParameters!B7, LoanParameters!B8, 0, -LoanParameters!B10)"),
  ("Future Value (With Contributions)",
   "=FV(LoanParameters!B7/12, LoanParameters!B8*12, -LoanParameters!B9, -LoanParameters!B10)"),
  ("Present Value Needed", "=PV(LoanParameters!B7, LoanParameters!B8, 0, -1000000)"),
  ("Monthly Contribution Needed",
   "=PMT(LoanParameters!B7/12, LoanParameters!B8*12, -LoanParameters!B10, 1000000)"),
  ("", ""),
  ("Project Analysis", ""),
  ("Net Present Value", "=NPV(LoanParameters!B13, CashFlows!B3:B12)"),
  ("Internal Rate of Return", "=IRR(CashFlows!C2:C12)"),
  ("Profitability Index", "=1 + B8/ABS(CashFlows!C2)")]

/-- Body of the `investment_formulas` loop (lines 160-164): the label cell's
font is `label_font if label else None`. -/
def investmentRowBody (r : Nat) (p : String × String) : List CellWrite :=
  [⟨r, 1, .s p.1, if p.1 != "" then some label_font else none, false⟩,
   cw r 2 (.s p.2)]

/-- `sensitivity_data` (lines 181-186), transcribed verbatim. -/
def sensitivity_data : List (List Val) := [
  [.n (mkRat 5 100), .s "=NPV(0.05, CashFlows!B3:B12)", .s "=IF(B15>0, \"Accept\", \"Reject\")"],
  [.n (mkRat 10 100), .s "=NPV(0.10, CashFlows!B3:B12)", .s "=IF(B16>0, \"Accept\", \"Reject\")"],
  [.n (mkRat 15 100), .s "=NPV(0.15, CashFlows!B3:B12)", .s "=IF(B17>0, \"Accept\", \"Reject\")"],
  [.n (mkRat 20 100), .s "=NPV(0.20, CashFlows!B3:B12)", .s "=IF(B18>0, \"Accept\", \"Reject\")"]]

/-- The `InvestmentAnalysis` sheet (lines 144-190). -/
def investmentAnalysis : Sheet :=
  ⟨"InvestmentAnalysis",
   cwf 1 1 (.s "Investment Growth") ⟨true, some 14⟩ ::
   enumRows investmentRowBody 2 investment_formulas ++
   [cwf 13 1 (.s "Sensitivity Analysis") ⟨true, some 12⟩,
    cwh 14 1 (.s "Discount Rate") header_font,
    cwh 14 2 (.s "NPV") header_font,
    cwh 14 3 (.s "Decision") header_font] ++
   enumRows dataRowBody 15 sensitivity_data,
   ["A1:B1", "A13:C13"]⟩

/-- The whole workbook, sheets in creation order (lines 22-25). -/
def workbook : List Sheet :=
  [loanParameters, cashFlows, loanCalculations, investmentAnalysis]

end create_financial_model

/-! ## `create_data_analysis` (source lines 201-357) -/

namespace create_data_analysis

/-- `header_font = Font(bold=True)`. -/
def header_font : Fnt := ⟨true, none⟩

/-- `label_font = Font(bold=True)`. -/
def label_font : Fnt := ⟨true, none⟩

/-- `regions = ['North', 'South', 'East', 'West']` (line 226). -/
def regions : List String := ["North", "South", "East", "West"]

/-- `products = ['Widget A', 'Widget B', 'Widget C']` (line 227). -/
def products : List String := ["Widget A", "Widget B", "Widget C"]

/-- `headers` of the `RawData` sheet (line 220), written into row 1 with the
header font and fill. -/
def rawHeader : List CellWrite :=
  [cwh 1 1 (.s "Sales Amount") header_font,
   cwh 1 2 (.s "Region") header_font,
   cwh 1 3 (.s "Product") header_font,
   cwh 1 4 (.s "Date") header_font,
   cwh 1 5 (.s "Customer ID") header_font]

/-- One iteration of the sample-data loop (lines 233-238): a sales amount
`randint(800, 4500)`, a region, a product, the date
`base_date + timedelta(days=i-2)` and the customer id `f'C{i-1:03d}'`. -/
def rawDataRow (R : PyRandom) (i : Nat) (st : RState) : List CellWrite × RState :=
  let r1 := randint R 800 4500 st
  let r2 := choice R regions r1.snd
  let r3 := choice R products r2.snd
  ([cw i 1 (.n r1.fst),
    cw i 2 (.s r2.fst),
    cw i 3 (.s r3.fst),
    cw i 4 (.s (strftimeMDY2024 (i - 2))),
    cw i 5 (.s ("C" ++ pad3 (i - 1)))], r3.snd)

/-- The `RawData` sheet together with the `random` state it leaves behind:
`random.seed(42)` (line 230) replaces the global state before the 100-row
loop over rows 2..101. -/
def rawDataSheet (R : PyRandom) : Sheet × RState :=
  let p := stLoop (rawDataRow R) 2 100 (RState.seeded 42 0)
  (⟨"RawData", rawHeader ++ p.fst, []⟩, p.snd)

/-- `params_data` of the `Parameters` sheet (lines 245-253). -/
def params_data : List (List Val) := [
  [.s "Confidence Level", .n (mkRat 95 100), .s "95% confidence"],
  [.s "Significance Threshold", .n (mkRat 5 100), .s "5% significance"],
  [.s "Moving Average Window", .n 7, .s "7-day window"],
  [.s "Outlier Threshold (σ)", .n 3, .s "3 standard deviations"],
  [.s "Minimum Sample Size", .n 30, .s "Min 30 samples"],
  [.s "Top N Items", .n 10, .s "Top 10 analysis"],
  [.s "Sales Target", .n 2500, .s "$2,500 target"]]

/-- Body of the `params_data` loop (lines 255-259): column 1 always receives
`label_font`. -/
def paramsRowBody (r : Nat) (row : List Val) : List CellWrite :=
  row.enum.map fun p =>
    if p.1 == 0 then cwf r (p.1 + 1) p.2 label_font else cw r (p.1 + 1) p.2

/-- The `Parameters` sheet (lines 241-259). -/
def parameters : Sheet :=
  ⟨"Parameters",
   cwf 1 1 (.s "Analysis Parameters") ⟨true, some 14⟩ :: enumRows paramsRowBody 2 params_data,
   ["A1:B1"]⟩

/-- `basic_stats` (lines 266-276), transcribed verbatim. -/
def basic_stats : List (String × String) := [
  ("Mean Sales", "=AVERAGE(RawData!A2:A101)"),
  ("Median Sales", "=MEDIAN(RawData!A2:A101)"),
  ("Standard Deviation", "=STDEV(RawData!A2:A101)"),
  ("Variance", "=VAR(RawData!A2:A101)"),
  ("Min Sales", "=MIN(RawData!A2:A101)"),
  ("Max Sales", "=MAX(RawData!A2:A101)"),
  ("Range", "=B7-B6"),
  ("Count", "=COUNT(RawData!A2:A101)"),
  ("Count Above Target", "=COUNTIF(RawData!A2:A101, \">\"&Parameters!B8)")]

/-- Body of the `basic_stats` / `percentiles` loops (lines 278-280, 295-297):
label in column 1 with `label_font`, formula in column 2. -/
def labelFormulaBody (r : Nat) (p : String × String) : List CellWrite :=
  [cwf r 1 (.s p.1) label_font, cw r 2 (.s p.2)]

/-- `percentiles` (lines 287-293), transcribed verbatim. -/
def percentiles : List (String × String) := [
  ("25th Percentile", "=PERCENTILE(RawData!A2:A101, 0.25)"),
  ("50th Percentile", "=PERCENTILE(RawData!A2:A101, 0.50)"),
  ("75th Percentile", "=PERCENTILE(RawData!A2:A101, 0.75)"),
  ("90th Percentile", "=PERCENTILE(RawData!A2:A101, 0.90)"),
  ("Interquartile Range", "=B15-B13")]

/-- One row of the regional-analysis loop (lines 313-317): region name plus
three formulas interpolating the region. -/
def regionalRow (r : Nat) (region : String) : List CellWrite :=
  [cw r 1 (.s region),
   cw r 2 (.s ("=COUNTIF(RawData!B2:B101, \"" ++ region ++ "\")")),
   cw r 3 (.s ("=AVERAGEIF(RawData!B2:B101, \"" ++ region ++ "\", RawData!A2:A101)")),
   cw r 4 (.s ("=SUMIF(RawData!B2:B101, \"" ++ region ++ "\", RawData!A2:A101)"))]

/-- The `Analysis` sheet (lines 262-317). -/
def analysis : Sheet :=
  ⟨"Analysis",
   cwf 1 1 (.s "Basic Statistics") ⟨true, some 14⟩ ::
   enumRows labelFormulaBody 2 basic_stats ++
   cwf 12 1 (.s "Percentile Analysis") ⟨true, some 12⟩ ::
   enumRows labelFormulaBody 13 percentiles ++
   [cwf 24 1 (.s "Regional Analysis") ⟨true, some 12⟩,
    cwh 25 1 (.s "Region") header_font,
    cwh 25 2 (.s "Count") header_font,
    cwh 25 3 (.s "Average") header_font,
    cwh 25 4 (.s "Total") header_font] ++
   enumRows regionalRow 26 regions,
   ["A1:B1", "A12:B12", "A24:D24"]⟩

/-- `summary_data` (lines 324-336), transcribed verbatim.  Every row of the
literal list has exactly two elements, so the `elif len(row) == 1` branch of
the loop (lines 347-348) never fires. -/
def summary_data : List (String × String) := [
  ("Total Sales", "=SUM(RawData!A2:A101)"),
  ("Average Daily Sales", "=Analysis!B2"),
  ("Best Performing Region",
   "=INDEX(Analysis!A26:A29, MATCH(MAX(Analysis!D26:D29), Analysis!D26:D29, 0))"),
  ("Sales Above Target (%)", "=Analysis!B10/Analysis!B9*100"),
  ("", ""),
  ("Data Quality Report", ""),
  ("Total Records", "=Analysis!B9"),
  ("Data Completeness (%)", "=COUNTA(RawData!A2:A101)/100*100"),
  ("", ""),
  ("Statistical Tests", ""),
  ("Sample Size Adequate", "=IF(Analysis!B9>=Parameters!B6, \"Yes\", \"No\")")]

/-- Body of the `summary_data` loop (lines 338-346): labels other than the
two intra-sheet section titles get `label_font`; `'Data Quality Report'` and
`'Statistical Tests'` get `Font(bold=True, size=12)`;
an empty label gets no font.  Column 2 always receives the second element. -/
def summaryRowBody (r : Nat) (p : String × String) : List CellWrite :=
  let f : Option Fnt :=
    if p.1 != "" && p.1 != "Data Quality Report" && p.1 != "Statistical Tests" then
      some label_font
    else if p.1 == "Data Quality Report" || p.1 == "Statistical Tests" then
      some ⟨true, some 12⟩
    else none
  [⟨r, 1, .s p.1, f, false⟩, cw r 2 (.s p.2)]

/-- The `Summary` sheet (lines 320-348). -/
def summary : Sheet :=
  ⟨"Summary",
   cwf 1 1 (.s "Executive Summary") ⟨true, some 14⟩ :: enumRows summaryRowBody 2 summary_data,
   ["A1:B1"]⟩

/-- The whole workbook and the `random` state left for the next caller.  The
incoming global state `_st` is discarded because `random.seed(42)` runs
before any draw (line 230). -/
def run (R : PyRandom) (_st : RState) : List Sheet × RState :=
  let p := rawDataSheet R
  ([p.fst, parameters, analysis, summary], p.snd)

end create_data_analysis

/-! ## `create_inventory_tracking` (source lines 359-561) -/

namespace create_inventory_tracking

/-- `header_font = Font(bold=True)`. -/
def header_font : Fnt := ⟨true, none⟩

/-- `label_font = Font(bold=True)`. -/
def label_font : Fnt := ⟨true, none⟩

/-- `product_headers` (lines 380-381), written into row 1. -/
def productHeader : List CellWrite :=
  [cwh 1 1 (.s "SKU") header_font,
   cwh 1 2 (.s "Product Name") header_font,
   cwh 1 3 (.s "Unit Cost") header_font,
   cwh 1 4 (.s "Lead Time (days)") header_font,
   cwh 1 5 (.s "Safety Stock") header_font,
   cwh 1 6 (.s "Annual Demand") header_font,
   cwh 1 7 (.s "Supplier") header_font,
   cwh 1 8 (.s "Category") header_font]

/-- `product_data` (lines 388-399), transcribed verbatim. -/
def product_data : List (List Val) := [
  [.s "SKU001", .s "Widget Alpha", .n (mkRat 2550 100), .n 7, .n 50, .n 2400, .s "Supplier A", .s "Electronics"],
  [.s "SKU002", .s "Widget Beta", .n (mkRat 4500 100), .n 14, .n 30, .n 1800, .s "Supplier B", .s "Electronics"],
  [.s "SKU003", .s "Widget Gamma", .n (mkRat 1275 100), .n 3, .n 100, .n 5000, .s "Supplier A", .s "Accessories"],
  [.s "SKU004", .s "Widget Delta", .n (mkRat 8999 100), .n 21, .n 20, .n 600, .s "Supplier C", .s "Premium"],
  [.s "SKU005", .s "Widget Epsilon", .n (mkRat 525 100), .n 5, .n 200, .n 10000, .s "Supplier B", .s "Consumables"],
  [.s "SKU006", .s "Widget Zeta", .n (mkRat 15000 100), .n 30, .n 10, .n 200, .s "Supplier D", .s "Premium"],
  [.s "SKU007", .s "Widget Eta", .n (mkRat 3500 100), .n 10, .n 40, .n 1500, .s "Supplier A", .s "Electronics"],
  [.s "SKU008", .s "Widget Theta", .n (mkRat 1850 100), .n 7, .n 75, .n 3000, .s "Supplier C", .s "Accessories"],
  [.s "SKU009", .s "Widget Iota", .n (mkRat 6200 100), .n 14, .n 25, .n 900, .s "Supplier B", .s "Electronics"],
  [.s "SKU010", .s "Widget Kappa", .n (mkRat 899 100), .n 3, .n 150, .n 7500, .s "Supplier A", .s "Consumables"]]

/-- The `Products` sheet (lines 380-403). -/
def productsSheet : Sheet :=
  ⟨"Products", productHeader ++ enumRows dataRowBody 2 product_data, []⟩

/-- `trans_headers` (lines 406-407), written into row 1. -/
def transHeader : List CellWrite :=
  [cwh 1 1 (.s "Date") header_font,
   cwh 1 2 (.s "Product SKU") header_font,
   cwh 1 3 (.s "Transaction Type") header_font,
   cwh 1 4 (.s "Quantity") header_font,
   cwh 1 5 (.s "Unit Price") header_font,
   cwh 1 6 (.s "Reference Number") header_font,
   cwh 1 7 (.s "Notes") header_font]

/-- The five SKUs used by the transaction generators (lines 419, 433). -/
def skuList : List String := ["SKU001", "SKU002", "SKU003", "SKU004", "SKU005"]

/-- One initial-stock row (lines 419-428): `base_date` formatted, the SKU,
`'IN'`, `randint(100, 300)`, price 0, a fixed PO reference, and a note. -/
def initStockRow (R : PyRandom) (sku : String) (st : RState) : List Val × RState :=
  let q := randint R 100 300 st
  ([.s (strftimeMDY2024 0), .s sku, .s "IN", .n q.fst, .n 0,
    .s "PO-2024-001", .s "Initial stock"], q.snd)

/-- The initial-stock loop over the five SKUs (lines 419-428). -/
def initLoop (R : PyRandom) : List String → RState → List (List Val) × RState
  | [], st => ([], st)
  | sku :: rest, st =>
    let p := initStockRow R sku st
    let q := initLoop R rest p.snd
    (p.fst :: q.fst, q.snd)

/-- One random transaction (lines 431-446, loop index `i` in `range(50)`):
date `base_date + timedelta(days=i//2)`, a random SKU, a transaction type
biased towards `'OUT'`, a quantity whose range depends on the type, price 0,
a reference `f'SO-2024-{i+1:03d}'` or `f'PO-2024-{i//10+2:03d}'`, and a note. -/
def transRow (R : PyRandom) (i : Nat) (st : RState) : List Val × RState :=
  let date := strftimeMDY2024 (i / 2)
  let sku := choice R skuList st
  let ty := choice R ["IN", "OUT", "OUT", "OUT"] sku.snd
  let q := if ty.fst == "OUT" then randint R 5 50 ty.snd else randint R 50 200 ty.snd
  let ref := if ty.fst == "OUT" then "SO-2024-" ++ pad3 (i + 1)
             else "PO-2024-" ++ pad3 (i / 10 + 2)
  let note := if ty.fst == "OUT" then "Customer order" else "Restock"
  ([.s date, .s sku.fst, .s ty.fst, .n q.fst, .n 0, .s ref, .s note], q.snd)

/-- `trans_data` (lines 414-446): five initial-stock rows followed by fifty
random transactions, drawn from whatever `random` state comes in (the
function never reseeds). -/
def trans_data (R : PyRandom) (st : RState) : List (List Val) × RState :=
  let a := initLoop R skuList st
  let b := stRows (transRow R) 0 50 a.snd
  (a.fst ++ b.fst, b.snd)

/-- The `Transactions` sheet and resulting `random` state (lines 405-450). -/
def transactionsSheet (R : PyRandom) (st : RState) : Sheet × RState :=
  let p := trans_data R st
  (⟨"Transactions", transHeader ++ enumRows dataRowBody 2 p.fst, []⟩, p.snd)

/-- `settings_data` (lines 457-467), transcribed verbatim. -/
def settings_data : List (List Val) := [
  [.s "Lead Time Multiplier", .n (mkRat 15 10), .s "Safety factor for lead time"],
  [.s "Ordering Cost per Order", .n 50, .s "Fixed cost per order"],
  [.s "Holding Cost Rate (annual %)", .n (mkRat 20 100), .s "20% annual holding cost"],
  [.s "Service Level Target", .n (mkRat 95 100), .s "95% service level"],
  [.s "Review Period (days)", .n 7, .s "Weekly review"],
  [.s "Min Order Quantity", .n 10, .s "Minimum order size"],
  [.s "Max Order Quantity", .n 1000, .s "Maximum order size"],
  [.s "Critical Stock Level (%)", .n (mkRat 25 100), .s "25% of reorder point"],
  [.s "Overstock Threshold (days)", .n 90, .s "90 days of supply"]]

/-- Body of the `settings_data` loop (lines 469-473): column 1 always
receives `label_font`. -/
def settingsRowBody (r : Nat) (row : List Val) : List CellWrite :=
  row.enum.map fun p =>
    if p.1 == 0 then cwf r (p.1 + 1) p.2 label_font else cw r (p.1 + 1) p.2

/-- The `Settings` sheet (lines 453-473). -/
def settingsSheet : Sheet :=
  ⟨"Settings",
   cwf 1 1 (.s "Inventory Settings") ⟨true, some 14⟩ :: enumRows settingsRowBody 2 settings_data,
   ["A1:B1"]⟩

/-- `inv_headers` (lines 476-477), written into row 1. -/
def invHeader : List CellWrite :=
  [cwh 1 1 (.s "SKU") header_font,
   cwh 1 2 (.s "Current Stock") header_font,
   cwh 1 3 (.s "Reorder Point") header_font,
   cwh 1 4 (.s "Status") header_font,
   cwh 1 5 (.s "Stock Value") header_font,
   cwh 1 6 (.s "Days of Supply") header_font,
   cwh 1 7 (.s "Turnover") header_font,
   cwh 1 8 (.s "ABC Class") header_font,
   cwh 1 9 (.s "Risk") header_font,
   cwh 1 10 (.s "EOQ") header_font]

/-- One row of the `CurrentInventory` formula loop (lines 485-495); the ten
f-string formulas interpolate the row index `r`. -/
def curInvRow (r : Nat) (sku : String) : List CellWrite :=
  let i := toString r
  [cw r 1 (.s sku),
   cw r 2 (.s ("=SUMIFS(Transactions!D:D, Transactions!B:B, A" ++ i ++
     ", Transactions!C:C, \"IN\") - SUMIFS(Transactions!D:D, Transactions!B:B, A" ++ i ++
     ", Transactions!C:C, \"OUT\")")),
   cw r 3 (.s ("=VLOOKUP(A" ++ i ++ ", Products!A:E, 4, FALSE) * Settings!B2 * (VLOOKUP(A" ++
     i ++ ", Products!A:F, 6, FALSE)/365) + VLOOKUP(A" ++ i ++ ", Products!A:E, 5, FALSE)")),
   cw r 4 (.s ("=IF(B" ++ i ++ "<=C" ++ i ++ "*Settings!B9, \"CRITICAL\", IF(B" ++ i ++
     "<=C" ++ i ++ ", \"REORDER\", \"OK\"))")),
   cw r 5 (.s ("=B" ++ i ++ " * VLOOKUP(A" ++ i ++ ", Products!A:C, 3, FALSE)")),
   cw r 6 (.s ("=IF(SUMIFS(Transactions!D:D, Transactions!B:B, A" ++ i ++
     ", Transactions!C:C, \"OUT\")/30>0, B" ++ i ++
     "/(SUMIFS(Transactions!D:D, Transactions!B:B, A" ++ i ++
     ", Transactions!C:C, \"OUT\")/30), 999)")),
   cw r 7 (.s ("=IF(B" ++ i ++ ">0, SUMIFS(Transactions!D:D, Transactions!B:B, A" ++ i ++
     ", Transactions!C:C, \"OUT\")/B" ++ i ++ "*365/30, 0)")),
   cw r 8 (.s ("=IF(E" ++ i ++ "/SUM(E:E)>0.7, \"A\", IF(E" ++ i ++
     "/SUM(E:E)>0.2, \"B\", \"C\"))")),
   cw r 9 (.s ("=IF(B" ++ i ++ "<C" ++ i ++ "*0.5, \"HIGH\", IF(B" ++ i ++ "<C" ++ i ++
     ", \"MEDIUM\", \"LOW\"))")),
   cw r 10 (.s ("=SQRT(2*VLOOKUP(A" ++ i ++ ", Products!A:F, 6, FALSE)*Settings!B3/(VLOOKUP(A" ++
     i ++ ", Products!A:C, 3, FALSE)*Settings!B4))"))]

/-- The `CurrentInventory` sheet (lines 476-495). -/
def currentInventory : Sheet :=
  ⟨"CurrentInventory", invHeader ++ enumRows curInvRow 2 skuList, []⟩

/-- The `Alerts` header row (lines 498-508). -/
def alertsHeader : List CellWrite :=
  [cwh 1 1 (.s "Alert Type") header_font,
   cwh 1 2 (.s "Product SKU") header_font,
   cwh 1 3 (.s "Message") header_font,
   cwh 1 4 (.s "Priority") header_font,
   cwh 1 5 (.s "Action Required") header_font,
   cwh 1 6 (.s "Date") header_font]

/-- `alert_types` (line 510). -/
def alert_types : List String := ["Stock Level", "Reorder Point", "Overstock", "Slow Moving"]

/-- Body of the `alert_types` loop (lines 512-522): every type is written
into column 1; only `'Stock Level'` and `'Reorder Point'` get formulas in
columns 2-4.  The other branches write nothing further. -/
def alertRow (r : Nat) (ty : String) : List CellWrite :=
  cw r 1 (.s ty) ::
  (if ty == "Stock Level" then
    [cw r 2 (.s "=IF(COUNTIF(CurrentInventory!D:D, \"CRITICAL\")>0, INDEX(CurrentInventory!A:A, MATCH(\"CRITICAL\", CurrentInventory!D:D, 0)), \"\")"),
     cw r 3 (.s "=IF(B2<>\"\", \"Critical stock level - immediate reorder required\", \"\")"),
     cw r 4 (.s "=IF(B2<>\"\", \"HIGH\", \"\")")]
  else if ty == "Reorder Point" then
    [cw r 2 (.s "=IF(COUNTIF(CurrentInventory!D:D, \"REORDER\")>0, INDEX(CurrentInventory!A:A, MATCH(\"REORDER\", CurrentInventory!D:D, 0)), \"\")"),
     cw r 3 (.s "=IF(B3<>\"\", \"Stock at reorder point - place order\", \"\")"),
     cw r 4 (.s "=IF(B3<>\"\", \"MEDIUM\", \"\")")]
  else [])

/-- The `Alerts` sheet (lines 498-522). -/
def alertsSheet : Sheet :=
  ⟨"Alerts", alertsHeader ++ enumRows alertRow 2 alert_types, []⟩

/-- `report_data` (lines 529-540), transcribed verbatim.  Every row of the
literal list has exactly two elements, so the `elif len(row) == 1` branch of
the loop (lines 551-552) never fires. -/
def report_data : List (String × String) := [
  ("Total Inventory Value", "=SUM(CurrentInventory!E:E)"),
  ("Number of SKUs", "=COUNTA(CurrentInventory!A:A)-1"),
  ("Items Below Reorder Point",
   "=COUNTIF(CurrentInventory!D:D, \"REORDER\") + COUNTIF(CurrentInventory!D:D, \"CRITICAL\")"),
  ("Items Out of Stock", "=COUNTIF(CurrentInventory!B:B, 0)"),
  ("Critical Stock Items", "=COUNTIF(CurrentInventory!D:D, \"CRITICAL\")"),
  ("", ""),
  ("Performance Metrics", ""),
  ("Average Turnover Rate", "=AVERAGE(CurrentInventory!G:G)"),
  ("Fill Rate (%)", "=(1-B5/B3)*100"),
  ("Service Level (%)", "=COUNTIF(CurrentInventory!D:D, \"OK\")/B3*100")]

/-- Body of the `report_data` loop (lines 542-550): labels other than
`'Performance Metrics'` get `label_font`; `'Performance Metrics'` gets
`Font(bold=True, size=12)`; an empty label gets no font. -/
def reportRowBody (r : Nat) (p : String × String) : List CellWrite :=
  let f : Option Fnt :=
    if p.1 != "" && p.1 != "Performance Metrics" then some label_font
    else if p.1 == "Performance Metrics" then some ⟨true, some 12⟩
    else none
  [⟨r, 1, .s p.1, f, false⟩, cw r 2 (.s p.2)]

/-- The `Reports` sheet (lines 525-552). -/
def reportsSheet : Sheet :=
  ⟨"Reports",
   cwf 1 1 (.s "Inventory Dashboard") ⟨true, some 14⟩ :: enumRows reportRowBody 2 report_data,
   ["A1:B1"]⟩

/-- The whole workbook (sheets in creation order, lines 367-372) and the
`random` state left behind.  Unlike `create_data_analysis`, this function
never calls `random.seed`, so its output depends on the incoming state. -/
def run (R : PyRandom) (st : RState) : List Sheet × RState :=
  let p := transactionsSheet R st
  ([productsSheet, p.fst, settingsSheet, currentInventory, alertsSheet, reportsSheet], p.snd)

end create_inventory_tracking

/-- `main`'s generation phase (lines 580-584): the three workbooks are built
in a fixed order, the global `random` state threading through them.
`create_financial_model` draws nothing; `create_data_analysis` reseeds with
42; `create_inventory_tracking` continues from the state that leaves. -/
def mainGen (R : PyRandom) (st : RState) : List (List Sheet) × RState :=
  let wb1 := create_financial_model.workbook
  let p2 := create_data_analysis.run R st
  let p3 := create_inventory_tracking.run R p2.snd
  ([wb1, p2.fst, p3.fst], p3.snd)

/-! ## The process boundary (module import, `main`, lines 1-12 and 563-601) -/

/-- Outcome of running the script: lines printed, files written, and the
uncaught exception aborting the process, if any. -/
structure ScriptResult where
  printed : List String
  files : List String
  uncaught : Option String
deriving DecidableEq

/-- The two banner lines printed at the top of `main` (lines 565-566). -/
def bannerLines : List String := ["🚀 Generating XLSX files for examples...", ""]

/-- The body of `main` (lines 563-598), reached only if the module itself
imported successfully.  Its `try: import openpyxl / except ImportError`
guard (lines 569-574) prints install guidance and returns when the library
is missing; otherwise the three files are generated and the closing usage
hints printed. -/
def mainFn (openpyxlAvailable : Bool) : ScriptResult :=
  if openpyxlAvailable then
    ⟨bannerLines ++
      ["✅ Created financial-model.xlsx",
       "✅ Created data-analysis.xlsx",
       "✅ Created inventory-tracking.xlsx",
       "",
       "✨ All XLSX files created successfully!",
       "",
       "You can now:",
       "1. Upload these files to Google Sheets (File → Import)",
       "2. Share the sheets publicly",
       "3. Update the JSON configuration files with the URLs",
       "4. Run the converter to generate code"],
     ["financial-model.xlsx", "data-analysis.xlsx", "inventory-tracking.xlsx"],
     none⟩
  else
    ⟨bannerLines ++
      ["❌ Error: openpyxl is not installed.",
       "Please install it with: pip install openpyxl"],
     [], none⟩

/-- Running `python generate_xlsx.py`: the module-level statements execute
first, and `from openpyxl import Workbook` (line 10) raises an uncaught
`ModuleNotFoundError` when openpyxl is absent — before `main` is ever
called.  Only when the import succeeds does `if __name__ == "__main__":
main()` (lines 600-601) run the body above. -/
def runScript (openpyxlAvailable : Bool) : ScriptResult :=
  if openpyxlAvailable then mainFn true
  else ⟨[], [], some "ModuleNotFoundError: No module named openpyxl"⟩

/-! ## String scanning of formula text -/

/-- `startsWith p cs`: the pattern `p` is an initial segment of `cs`. -/
def startsWith : List Char → List Char → Bool
  | [], _ => true
  | _ :: _, [] => false
  | p :: ps, c :: cs => p == c && startsWith ps cs

/-- Read a decimal number from the front of a character list. -/
def takeNum : List Char → Nat → Nat × List Char
  | [], acc => (acc, [])
  | c :: cs, acc =>
    if c.isDigit then takeNum cs (acc * 10 + (c.toNat - 48)) else (acc, c :: cs)

/-- All cell references of the form `<tag><letter><digits>` occurring in a
character list (e.g. tag `LoanParameters!`), as (column letter, row) pairs,
in order of occurrence.  The fuel is the length of the list. -/
def extractRefs (tag : List Char) : Nat → List Char → List (Char × Nat)
  | 0, _ => []
  | _ + 1, [] => []
  | fuel + 1, c :: cs =>
    if startsWith tag (c :: cs) then
      match (c :: cs).drop tag.length with
      | d :: ds =>
        if d.isAlpha then
          let p := takeNum ds 0
          (d, p.fst) :: extractRefs tag fuel p.snd
        else extractRefs tag fuel (d :: ds)
      | [] => []
    else extractRefs tag fuel cs

/-- Cell references to the `LoanParameters` sheet occurring in a formula
string. -/
def loanParamRefs (f : String) : List (Char × Nat) :=
  extractRefs "LoanParameters!".data f.data.length f.data

/-! ## Merge ranges -/

/-- A rectangular cell range `r1 c1 .. r2 c2`. -/
structure CellRange where
  r1 : Nat
  c1 : Nat
  r2 : Nat
  c2 : Nat
deriving DecidableEq

/-- Parse a single-letter column / decimal row cell reference such as `B12`,
returning (row, column, rest). -/
def parseCellRef : List Char → Option (Nat × Nat × List Char)
  | c :: rest =>
    if 'A' ≤ c && c ≤ 'Z' then
      let p := takeNum rest 0
      some (p.fst, c.toNat - 64, p.snd)
    else none
  | [] => none

/-- Parse a merge directive such as `A6:C6`. -/
def parseRange (str : String) : Option CellRange :=
  match parseCellRef str.data with
  | some (r1, c1, ':' :: rest) =>
    match parseCellRef rest with
    | some (r2, c2, []) => some ⟨r1, c1, r2, c2⟩
    | _ => none
  | _ => none

/-- Two ranges overlap when their row spans and column spans both meet. -/
def rangesOverlap (a b : CellRange) : Bool :=
  a.r1 ≤ b.r2 && b.r1 ≤ a.r2 && a.c1 ≤ b.c2 && b.c1 ≤ a.c2

/-- Every pair of distinct ranges in the list is non-overlapping. -/
def pairwiseDisjoint : List CellRange → Bool
  | [] => true
  | x :: xs => xs.all (fun y => !rangesOverlap x y) && pairwiseDisjoint xs

/-! ## Section headers -/

/-- A cell write carrying the emphasized section styling: bold font of size
12 or 14 and no header fill (header cells of data tables always carry the
fill, so they are excluded). -/
def isSectionFont (w : CellWrite) : Bool :=
  !w.fill && (w.font == some ⟨true, some 12⟩ || w.font == some ⟨true, some 14⟩)

/-- A sheet satisfies the section-header placement rule: every
section-styled write sits in row 1 or directly under a blank row. -/
def sheetSectionOk (sh : Sheet) : Bool :=
  (sh.writes.filter isSectionFont).all fun w =>
    w.row == 1 || rowBlank sh.writes (w.row - 1)

/-- The sheets whose contents are independent of the `random` stream. -/
def litSheets : List Sheet :=
  [create_financial_model.loanParameters,
   create_financial_model.cashFlows,
   create_financial_model.loanCalculations,
   create_financial_model.investmentAnalysis,
   create_data_analysis.parameters,
   create_data_analysis.analysis,
   create_data_analysis.summary,
   create_inventory_tracking.productsSheet,
   create_inventory_tracking.settingsSheet,
   create_inventory_tracking.currentInventory,
   create_inventory_tracking.alertsSheet,
   create_inventory_tracking.reportsSheet]

/-- The merged section headers of the generated workbooks with their
declared column spans: sheet name, anchor row, and the width named by the
`merge_cells` directive (`A1:B1` declares 2 columns, `A6:C6` 3, `A7:D7` 4,
`A12:B12` 2, `A13:C13` 3, `A24:D24` 4). -/
def sectionHeaderSpans : List (String × Nat × Nat) := [
  ("LoanParameters", 1, 2), ("LoanParameters", 6, 3), ("LoanParameters", 12, 3),
  ("LoanCalculations", 1, 2), ("LoanCalculations", 7, 4),
  ("InvestmentAnalysis", 1, 2), ("InvestmentAnalysis", 13, 3),
  ("Parameters", 1, 2),
  ("Analysis", 1, 2), ("Analysis", 12, 2), ("Analysis", 24, 4),
  ("Summary", 1, 2),
  ("Settings", 1, 2),
  ("Reports", 1, 2)]

/-- The entry's sheet exists among the literal sheets, carries a
section-styled write at (row, 1), and registers a merge parsing to the
single-row range of exactly the declared width anchored there. -/
def spanOk (e : String × Nat × Nat) : Bool :=
  litSheets.any fun sh =>
    sh.name == e.1 &&
    sh.writes.any (fun w => isSectionFont w && w.row == e.2.1 && w.col == 1) &&
    sh.merges.any (fun m => parseRange m == some ⟨e.2.1, 1, e.2.1, e.2.2⟩)

/-- The full merge table of every sheet of every workbook, in generation
order: (sheet name, merge directives). -/
def mergeTable : List (String × List String) := [
  ("LoanParameters", ["A1:B1", "A6:C6", "A12:C12"]),
  ("CashFlows", []),
  ("LoanCalculations", ["A1:B1", "A7:D7"]),
  ("InvestmentAnalysis", ["A1:B1", "A13:C13"]),
  ("RawData", []),
  ("Parameters", ["A1:B1"]),
  ("Analysis", ["A1:B1", "A12:B12", "A24:D24"]),
  ("Summary", ["A1:B1"]),
  ("Products", []),
  ("Transactions", []),
  ("Settings", ["A1:B1"]),
  ("CurrentInventory", []),
  ("Alerts", []),
  ("Reports", ["A1:B1"])]

/-! ## Label+formula rows -/

/-- Every (label, formula) pair written by the six label+formula loops of
the three workbooks, concatenated in generation order. -/
def allLabelFormulaPairs : List (String × String) :=
  create_financial_model.loan_calc_formulas ++
  create_financial_model.investment_formulas ++
  create_data_analysis.basic_stats ++
  create_data_analysis.percentiles ++
  create_data_analysis.summary_data ++
  create_inventory_tracking.report_data

/-- The claimed property of a label+formula pair: a non-empty label comes
with a non-empty formula cell. -/
def labelFormulaOk (p : String × String) : Bool :=
  p.1 == "" || p.2 != ""

/-- The four intra-sheet section-title rows that are authored as
two-element rows with an empty second element. -/
def sectionTitleLabels : List String :=
  ["Project Analysis", "Data Quality Report", "Statistical Tests", "Performance Metrics"]

/-! ## Status formula evaluation -/

/-- Modelled from the spec: the spec defers formula evaluation to
spreadsheet software ("evaluates (once opened in spreadsheet software)"),
which is outside this repository.  This is the spreadsheet semantics of the
status IF-chain `=IF(b<=c*s9, "CRITICAL", IF(b<=c, "REORDER", "OK"))` on
numeric inputs `b` (current stock), `c` (reorder point) and `s9`
(`Settings!B9`, the critical stock fraction). -/
def evalStatusFormula (b c s9 : ℚ) : String :=
  if b ≤ c * s9 then "CRITICAL" else if b ≤ c then "REORDER" else "OK"

/-- A value holding formula text (a string whose first character is `=`). -/
def isFormula : Val → Bool
  | .s str =>
    match str.data with
    | c :: _ => c == '='
    | [] => false
  | _ => false

/-! ## Helper lemmas -/

/-- `enumRows` writes descriptor `k` of the sequence exactly with cursor
`start + k`. -/
theorem enumRows_eq_flatMap {α : Type} (f : Nat → α → List CellWrite) :
    ∀ (rows : List α) (start : Nat),
      enumRows f start rows = (List.enumFrom start rows).flatMap (fun p => f p.1 p.2) := by
  intro rows
  induction rows with
  | nil => intro start; rfl
  | cons x xs ih => intro start; simp [enumRows, List.enumFrom, ih]

/-- The cursor positions of `enumerate(rows, start=start)` are exactly
`start, start+1, ..., start+len(rows)-1`. -/
theorem enumFrom_fst_range {α : Type} :
    ∀ (rows : List α) (start : Nat),
      (List.enumFrom start rows).map Prod.fst = List.range' start rows.length := by
  intro rows
  induction rows with
  | nil => intro start; rfl
  | cons x xs ih => intro start; simp [List.enumFrom, List.range', ih]

/-- When every loop body writes only into its given row, all writes of
`enumRows` land inside the block `start .. start+len(rows)-1`. -/
theorem enumRows_row_bounds {α : Type} (f : Nat → α → List CellWrite)
    (hf : ∀ r x, ∀ w ∈ f r x, w.row = r) :
    ∀ (rows : List α) (start : Nat) (w : CellWrite), w ∈ enumRows f start rows →
      start ≤ w.row ∧ w.row < start + rows.length := by
  intro rows
  induction rows with
  | nil => intro start w hw; simp [enumRows] at hw
  | cons x xs ih =>
    intro start w hw
    simp only [enumRows, List.mem_append] at hw
    simp only [List.length_cons]
    rcases hw with h | h
    · have := hf start x w h; omega
    · have := ih (start + 1) w h; omega

/-- The `params_data` loop body of `create_financial_model` writes only
into the row it is given. -/
theorem paramsRowBody_row (r : Nat) (row : List Val) :
    ∀ w ∈ create_financial_model.paramsRowBody r row, w.row = r := by
  intro w hw
  unfold create_financial_model.paramsRowBody at hw
  split at hw
  · simp at hw; subst hw; rfl
  · simp only [List.mem_map] at hw
    obtain ⟨p, _, he⟩ := hw
    subst he
    split <;> rfl

/-- The writes of one `RawData` sample row are unstyled. -/
theorem rawDataRow_not_section (R : PyRandom) (i : Nat) (st : RState) :
    ∀ w ∈ (create_data_analysis.rawDataRow R i st).fst, isSectionFont w = false := by
  intro w hw
  simp [create_data_analysis.rawDataRow] at hw
  rcases hw with h | h | h | h | h <;> subst h <;> rfl

/-- Plain data-row writes are unstyled. -/
theorem dataRowBody_not_section (r : Nat) (row : List Val) :
    ∀ w ∈ dataRowBody r row, isSectionFont w = false := by
  intro w hw
  simp only [dataRowBody, List.mem_map] at hw
  obtain ⟨p, _, he⟩ := hw
  subst he; rfl

/-- A state-threading loop whose body never writes section styling produces
no section-styled writes. -/
theorem stLoop_filter_sectionFont (body : Nat → RState → List CellWrite × RState)
    (hb : ∀ i st w, w ∈ (body i st).fst → isSectionFont w = false) :
    ∀ (n i : Nat) (st : RState), ((stLoop body i n st).fst.filter isSectionFont) = [] := by
  intro n
  induction n with
  | zero => intro i st; rfl
  | succ n ih =>
    intro i st
    have h1 : (((body i st).fst).filter isSectionFont) = [] :=
      List.filter_eq_nil_iff.mpr (by intro a ha; simp [hb i st a ha])
    simp [stLoop, List.filter_append, h1, ih]

/-- An `enumRows` loop whose body never writes section styling produces no
section-styled writes. -/
theorem enumRows_filter_sectionFont {α : Type} (f : Nat → α → List CellWrite)
    (hf : ∀ r x w, w ∈ f r x → isSectionFont w = false) :
    ∀ (rows : List α) (start : Nat), ((enumRows f start rows).filter isSectionFont) = [] := by
  intro rows
  induction rows with
  | nil => intro start; rfl
  | cons x xs ih =>
    intro start
    have h1 : ((f start x).filter isSectionFont) = [] :=
      List.filter_eq_nil_iff.mpr (by intro a ha; simp [hf start x a ha])
    simp [enumRows, List.filter_append, h1, ih]

/-- `create_data_analysis` always leaves the `random` module in the state
reached 300 draws after `random.seed(42)`: the 100-row sample-data loop
makes three draws per row and nothing else draws. -/
theorem seed_state_after_da (R : PyRandom) (st : RState) :
    (create_data_analysis.run R st).snd = .seeded 42 300 := by
  set_option maxRecDepth 40000 in rfl

/-! ## The claims -/

/-- C1: the claim says a missing openpyxl is reported with install guidance
and a clean exit.  That is what `main`'s guard (lines 569-574) would do —
`mainFn false` below prints exactly that diagnostic and returns — but the
guard is dead code: the module-level `from openpyxl import Workbook`
(line 10) raises an uncaught `ModuleNotFoundError` before `main` runs, so
the actual process dies with a traceback and prints nothing. -/
theorem missing_openpyxl_is_fatal :
    runScript false = ⟨[], [], some "ModuleNotFoundError: No module named openpyxl"⟩ ∧
    (runScript false).printed = [] ∧
    mainFn false = ⟨bannerLines ++ ["❌ Error: openpyxl is not installed.",
      "Please install it with: pip install openpyxl"], [], none⟩ :=
  ⟨rfl, rfl, rfl⟩

/-- C2 counterexample: the row `['Project Analysis', '']` of
`investment_formulas` is written through the label+formula branch with a
non-empty label and an empty formula cell, so the claim fails as stated. -/
theorem label_formula_counterexample :
    ("Project Analysis", "") ∈ allLabelFormulaPairs ∧
    labelFormulaOk ("Project Analysis", "") = false ∧
    allLabelFormulaPairs.all labelFormulaOk = false := by decide

/-- C2 (amended): in every label+formula row of the three workbooks, a
non-empty label comes with a non-empty formula cell unless the row is one
of the four intra-sheet section-title rows (`Project Analysis`,
`Data Quality Report`, `Statistical Tests`, `Performance Metrics`), which
are authored with an empty second element. -/
theorem label_formula_rows_amended :
    allLabelFormulaPairs.all
      (fun p => p.1 == "" || sectionTitleLabels.contains p.1 || p.2 != "") = true := by decide

/-- C3: the cell contents produced by the full generation are independent
of the interpreter's initial `random` state (the only varying input), hence
identical across any two invocations; any serialization that is a function
of workbook contents therefore also yields identical byte sizes; in
particular the seed-42 sample-sales workbook reproduces identically. -/
theorem full_generation_state_independent :
    ∀ (R : PyRandom) (s1 s2 : RState) (fileBytes : List Sheet → List Nat),
      (mainGen R s1).fst = (mainGen R s2).fst ∧
      ((mainGen R s1).fst.map fun wb => (fileBytes wb).length) =
        ((mainGen R s2).fst.map fun wb => (fileBytes wb).length) ∧
      (create_data_analysis.run R s1).fst = (create_data_analysis.run R s2).fst :=
  fun _ _ _ _ => ⟨rfl, rfl, rfl⟩

/-- C4: `LoanCalculations!B2` holds the PMT formula whose `LoanParameters`
references are exactly `B2`, `B3`, `B4` — the cells holding the annual
rate 0.05, the 30-year term, and the 500000 principal. -/
theorem loan_calculations_b2_references :
    cellVal create_financial_model.loanCalculations.writes 2 2 =
      .s "=PMT(LoanParameters!B2/12, LoanParameters!B3*12, -LoanParameters!B4)" ∧
    loanParamRefs "=PMT(LoanParameters!B2/12, LoanParameters!B3*12, -LoanParameters!B4)" =
      [('B', 2), ('B', 3), ('B', 4)] ∧
    cellVal create_financial_model.loanParameters.writes 2 1 = .s "Annual Interest Rate" ∧
    cellVal create_financial_model.loanParameters.writes 2 2 = .n (mkRat 5 100) ∧
    cellVal create_financial_model.loanParameters.writes 3 1 = .s "Loan Term (Years)" ∧
    cellVal create_financial_model.loanParameters.writes 3 2 = .n 30 ∧
    cellVal create_financial_model.loanParameters.writes 4 1 = .s "Loan Principal" ∧
    cellVal create_financial_model.loanParameters.writes 4 2 = .n 500000 := by decide

/-- C5: the sheet named `CurrentInventory` holds at row 2, column 4 the
status IF-chain formula, and its evaluation on any numeric inputs — in
particular on whatever the sample `Products` and `Transactions` data give
for current stock and reorder point — is one of exactly
`CRITICAL`, `REORDER`, `OK`. -/
theorem current_inventory_status_formula :
    create_inventory_tracking.currentInventory.name = "CurrentInventory" ∧
    cellVal create_inventory_tracking.currentInventory.writes 2 4 =
      .s "=IF(B2<=C2*Settings!B9, \"CRITICAL\", IF(B2<=C2, \"REORDER\", \"OK\"))" ∧
    ∀ b c s9 : ℚ, evalStatusFormula b c s9 ∈ ["CRITICAL", "REORDER", "OK"] := by
  refine ⟨rfl, by decide, ?_⟩
  intro b c s9
  unfold evalStatusFormula
  split
  · simp
  · split <;> simp

/-- C6: writing a descriptor sequence of length N with `enumRows` starting
at row R processes descriptor k at cursor R+k (one row per descriptor, even
for all-empty descriptors), the cursors cover exactly R..R+N-1, and — when
the loop body writes only into its given row — every write lands inside
that block, with no gaps or overlaps between descriptors. -/
theorem enumRows_occupancy {α : Type} (f : Nat → α → List CellWrite) (start : Nat)
    (rows : List α) (hf : ∀ r x, ∀ w ∈ f r x, w.row = r) :
    enumRows f start rows = (List.enumFrom start rows).flatMap (fun p => f p.1 p.2) ∧
    (List.enumFrom start rows).map Prod.fst = List.range' start rows.length ∧
    ∀ w ∈ enumRows f start rows, start ≤ w.row ∧ w.row < start + rows.length :=
  ⟨enumRows_eq_flatMap f rows start, enumFrom_fst_range rows start,
   fun w hw => enumRows_row_bounds f hf rows start w hw⟩

/-- Witness for C6 at the `params_data` loop of `create_financial_model`
(16 descriptors written from row 2). -/
theorem enumRows_occupancy_witness :
    enumRows create_financial_model.paramsRowBody 2 create_financial_model.params_data =
      (List.enumFrom 2 create_financial_model.params_data).flatMap
        (fun p => create_financial_model.paramsRowBody p.1 p.2) :=
  (enumRows_occupancy create_financial_model.paramsRowBody 2
    create_financial_model.params_data paramsRowBody_row).1

/-- C7: every section-styled header of every generated sheet sits in row 1
or directly under a blank spacer row; every merged section header registers
a single-row merge of exactly its declared column span; and the two
random-data sheets (`RawData`, `Transactions`) contain no section-styled
writes at all, for every generator and incoming state. -/
theorem section_headers_placed :
    litSheets.all sheetSectionOk = true ∧
    sectionHeaderSpans.all spanOk = true ∧
    (∀ R : PyRandom,
      ((create_data_analysis.rawDataSheet R).fst.writes.filter isSectionFont) = []) ∧
    (∀ (R : PyRandom) (st : RState),
      ((create_inventory_tracking.transactionsSheet R st).fst.writes.filter isSectionFont)
        = []) := by
  refine ⟨by decide, by decide, ?_, ?_⟩
  · intro R
    show ((create_data_analysis.rawHeader ++
      (stLoop (create_data_analysis.rawDataRow R) 2 100 (RState.seeded 42 0)).fst).filter
        isSectionFont) = []
    rw [List.filter_append,
      stLoop_filter_sectionFont (create_data_analysis.rawDataRow R)
        (fun i st w hw => rawDataRow_not_section R i st w hw) 100 2 (RState.seeded 42 0)]
    rfl
  · intro R st
    show ((create_inventory_tracking.transHeader ++
      enumRows dataRowBody 2 (create_inventory_tracking.trans_data R st).fst).filter
        isSectionFont) = []
    rw [List.filter_append,
      enumRows_filter_sectionFont dataRowBody
        (fun r x w hw => dataRowBody_not_section r x w hw)
        (create_inventory_tracking.trans_data R st).fst 2]
    rfl

/-- C8: for every generator and incoming state, the sheets of the three
workbooks register exactly the merge directives of `mergeTable`, all of
which parse, and within each sheet the parsed merge ranges are pairwise
non-overlapping. -/
theorem merged_ranges_never_overlap :
    (∀ (R : PyRandom) (st : RState),
      (mainGen R st).fst.flatten.map (fun sh => (sh.name, sh.merges)) = mergeTable) ∧
    mergeTable.all (fun p => (p.2.all fun m => (parseRange m).isSome) &&
      pairwiseDisjoint (p.2.filterMap parseRange)) = true :=
  ⟨fun _ _ => rfl, by decide⟩

/-- C9: within `main`'s fixed call order the inventory workbook is the same
for any two runs, because `create_data_analysis` always leaves the `random`
stream in the seed-42 state after 300 draws and `create_inventory_tracking`
merely continues that stream without reseeding; by itself, however,
`create_inventory_tracking` is not deterministic — two different incoming
states produce different `Transactions` contents. -/
theorem inventory_determinism_conditional :
    (∀ (R : PyRandom) (s1 s2 : RState),
      (create_inventory_tracking.run R (create_data_analysis.run R s1).snd).fst =
      (create_inventory_tracking.run R (create_data_analysis.run R s2).snd).fst) ∧
    (∀ (R : PyRandom) (st : RState), (create_data_analysis.run R st).snd = .seeded 42 300) ∧
    (∃ (R : PyRandom) (s1 s2 : RState),
      (create_inventory_tracking.run R s1).fst ≠ (create_inventory_tracking.run R s2).fst) := by
  refine ⟨fun R s1 s2 => rfl, seed_state_after_da, ?_⟩
  exact ⟨⟨fun _ _ => 0, fun e _ => e⟩, .unseeded 0 0, .unseeded 1 0, fun h =>
    absurd (congrArg (fun l => cellVal ((l.getD 1 ⟨"", [], []⟩).writes) 2 4) h)
      (by set_option maxRecDepth 100000 in decide)⟩

/-- C10: the `Alerts` sheet writes the four alert types into column 1 of
rows 2-5; rows 2 (`Stock Level`) and 3 (`Reorder Point`) carry formulas in
columns 2-4, while rows 4 (`Overstock`) and 5 (`Slow Moving`) are left with
columns 2-6 entirely empty. -/
theorem alerts_sheet_shape :
    cellVal create_inventory_tracking.alertsSheet.writes 2 1 = .s "Stock Level" ∧
    cellVal create_inventory_tracking.alertsSheet.writes 3 1 = .s "Reorder Point" ∧
    cellVal create_inventory_tracking.alertsSheet.writes 4 1 = .s "Overstock" ∧
    cellVal create_inventory_tracking.alertsSheet.writes 5 1 = .s "Slow Moving" ∧
    (([2, 3] : List Nat).all fun r => ([2, 3, 4] : List Nat).all fun c =>
      isFormula (cellVal create_inventory_tracking.alertsSheet.writes r c)) = true ∧
    (([4, 5] : List Nat).all fun r => ([2, 3, 4, 5, 6] : List Nat).all fun c =>
      cellVal create_inventory_tracking.alertsSheet.writes r c == .empty) = true := by decide

end GenXlsx
